import Mathlib

/-
  Verification of the message-debouncing backend:
  shallow embedding of src/backend/app/core/buffer.py,
  src/backend/app/jobs/send_message.py and
  src/backend/app/routers/api/v1/websocket.py, with theorems about the
  debounce scheduler, the burst processor and the connection registry.
-/

namespace BrendiFast

/-- Default of settings.MESSAGE_BUFFER_TIMEOUT_SECONDS (app/core/config.py):
the debounce window in seconds. -/
def MESSAGE_BUFFER_TIMEOUT_SECONDS : Int := 2

/-- One entry of the message buffer (buffer.py, message_entry): we keep the
fields the claims depend on, content and timestamp. -/
structure BufMsg where
  content : String
  timestamp : Int
deriving DecidableEq

/-- Python str.strip with no argument: drop leading and trailing
whitespace characters. -/
def pyStrip (s : String) : String :=
  ⟨((s.data.dropWhile Char.isWhitespace).reverse.dropWhile
      Char.isWhitespace).reverse⟩

/-- combine_messages (buffer.py lines 149-172): empty list gives "",
a single message returns its content verbatim, otherwise each content is
stripped, empty ones are dropped (the Python loop building combined_parts)
and the rest joined with a blank line. -/
def combine_messages : List String → String
  | [] => ""
  | [m] => m
  | msgs =>
    let combined_parts := msgs.foldl
      (fun acc msg =>
        let content := pyStrip msg
        if content = "" then acc else acc ++ [content]) []
    String.intercalate "\n\n" combined_parts

/-- The accumulating loop of combine_messages equals strip-then-filter. -/
lemma combine_fold_eq_filter (msgs : List String) (acc : List String) :
    msgs.foldl
      (fun acc msg =>
        let content := pyStrip msg
        if content = "" then acc else acc ++ [content]) acc
      = acc ++ (msgs.map pyStrip).filter (fun s => s != "") := by
  induction msgs generalizing acc with
  | nil => simp
  | cons hd tl ih =>
    simp only [List.foldl_cons, List.map_cons, List.filter_cons]
    by_cases h : pyStrip hd = ""
    · simp [h, ih]
    · simp [h, ih]

/-- Claim C3: combine_messages returns the single content verbatim for a
one-element list, the blank-line join of the stripped non-empty contents
in order for two or more, and "" for the empty list. -/
theorem combine_messages_cases :
    combine_messages [] = "" ∧
    (∀ m : String, combine_messages [m] = m) ∧
    (∀ a b : String, ∀ rest : List String,
      combine_messages (a :: b :: rest) =
        String.intercalate "\n\n"
          (((a :: b :: rest).map pyStrip).filter (fun s => s != ""))) := by
  refine ⟨rfl, fun m => rfl, fun a b rest => ?_⟩
  show String.intercalate "\n\n" _ = _
  rw [combine_fold_eq_filter]
  simp

/-- The per-conversation buffer state (the two redis keys of buffer.py:
the message list and the stored process_at instant). -/
structure BufferState where
  messages : List BufMsg
  processAt : Option Int
deriving DecidableEq

/-- State before any message arrived: no buffer key in the store. -/
def emptyBuffer : BufferState := ⟨[], none⟩

/-- The dictionary returned by add_message_to_buffer (buffer.py lines
87-93), restricted to the fields callers read. -/
structure AppendResult where
  is_first_message : Bool
  process_at : Int
  message_count : Nat
deriving DecidableEq

/-- add_message_to_buffer (buffer.py lines 46-93): read the existing
buffer, append the new entry, set process_at to now plus the debounce
window, store both, and report is_first_message as the new list having
length one. -/
def add_message_to_buffer (now : Int) (message : String) (st : BufferState) :
    BufferState × AppendResult :=
  let messages := st.messages ++ [⟨message, now⟩]
  let process_at := now + MESSAGE_BUFFER_TIMEOUT_SECONDS
  (⟨messages, some process_at⟩,
   ⟨messages.length == 1, process_at, messages.length⟩)

/-- Error path of add_message_to_buffer (buffer.py lines 95-97): the try
block wraps every store access; except logs and re-raises, so a store
error surfaces to the caller as the same error. -/
def add_message_to_buffer_store (store : Except String Unit) (now : Int)
    (message : String) (st : BufferState) :
    Except String (BufferState × AppendResult) :=
  match store with
  | .error e => .error e
  | .ok _ => .ok (add_message_to_buffer now message st)

/-- get_buffered_messages (buffer.py lines 100-123): returns the parsed
list when the key holds one, none when absent; on a store error it logs
and returns None ("no burst"). -/
def get_buffered_messages (store : Except String (Option (List BufMsg))) :
    Option (List BufMsg) :=
  match store with
  | .error _ => none
  | .ok data => data

/-- clear_buffer (buffer.py lines 126-146): deletes the two keys and
reports whether anything was deleted; on a store error it logs and
returns False — the error is swallowed, not re-raised. -/
def clear_buffer (delRes : Except String Nat) : Except String Bool :=
  match delRes with
  | .error _ => .ok false
  | .ok deleted => .ok (decide (deleted > 0))

/-- Claim C8: add_message_to_buffer always sets process_at to now plus the
debounce window, so across appends at non-decreasing times the deadline
never moves backward. -/
theorem process_at_monotone (t1 t2 : Int) (c1 c2 : String)
    (st1 st2 : BufferState) (h : t1 ≤ t2) :
    (add_message_to_buffer t1 c1 st1).2.process_at
        = t1 + MESSAGE_BUFFER_TIMEOUT_SECONDS ∧
    (add_message_to_buffer t1 c1 st1).2.process_at
        ≤ (add_message_to_buffer t2 c2 st2).2.process_at := by
  refine ⟨rfl, ?_⟩
  simpa [add_message_to_buffer] using h

/-- Witness for process_at_monotone at concrete times 3 ≤ 7. -/
theorem process_at_monotone_witness :
    (add_message_to_buffer 3 "a" emptyBuffer).2.process_at
        = 3 + MESSAGE_BUFFER_TIMEOUT_SECONDS ∧
    (add_message_to_buffer 3 "a" emptyBuffer).2.process_at
        ≤ (add_message_to_buffer 7 "b"
            (add_message_to_buffer 3 "a" emptyBuffer).1).2.process_at :=
  process_at_monotone 3 7 "a" "b" emptyBuffer
    (add_message_to_buffer 3 "a" emptyBuffer).1 (by decide)

/-- Counterexample to claim C7: a store error during clear_buffer is not
surfaced — the function swallows it and returns ok false, the same value
as "buffer did not exist". -/
theorem clear_buffer_swallows_store_error :
    clear_buffer (Except.error "connection refused") = Except.ok false := rfl

/-- Claim C7 (amended): a store error on appendMessage is surfaced to the
caller; a store error on readMessages yields "no burst"; a store error on
clear is swallowed and reported as ok false. -/
theorem store_error_handling :
    (∀ e : String, ∀ now : Int, ∀ m : String, ∀ st : BufferState,
      add_message_to_buffer_store (Except.error e) now m st = Except.error e) ∧
    (∀ e : String, get_buffered_messages (Except.error e) = none) ∧
    (∀ e : String, clear_buffer (Except.error e) = Except.ok false) :=
  ⟨fun _ _ _ _ => rfl, fun _ => rfl, fun _ => rfl⟩

/-- A row of the chat_messages transcript as the job persists it
(send_message.py lines 68-95), restricted to role and content. -/
structure TranscriptEntry where
  role : String
  content : String
deriving DecidableEq

/-- An outbound payload on the delivery channel (websocket.py response
format: typing, user echo, assistant message, or error). -/
inductive Payload where
  | typing
  | userEcho (content : String)
  | message (content : String)
  | error (content : String)
deriving DecidableEq

/-- The environment one burst-processor run observes: the buffer read
result (none models an absent key) and the outcome of each fallible step
in source order — the user-row flush, the response-generation
collaborator process_message, the assistant-row commit, and the
websocket delivery attempt. -/
structure BurstEnv where
  buffer : Option (List BufMsg)
  flushResult : Except String Unit
  genResult : Except String String
  commitResult : Except String Unit
  deliverResult : Except String Unit

/-- What one burst-processor run did: committed transcript rows, delivery
pushes, whether the buffer was cleared, whether generation was invoked,
and the returned value or re-raised error. -/
structure BurstOutcome where
  transcript : List TranscriptEntry
  pushes : List Payload
  cleared : Bool
  genInvoked : Bool
  result : Except String String

/-- process_buffered_messages (send_message.py lines 21-127): empty or
absent buffer returns immediately; blank combined text clears and
returns. Otherwise the user rows are added and flushed, generation runs,
the assistant row is added and the transaction committed, the buffer is
cleared, and the assistant message is pushed. A flush, generation or
commit error rolls the transaction back (nothing committed) and reaches
the outer except clause, which clears the buffer and re-raises — nothing
is pushed. A delivery error comes after the commit and the clear and is
swallowed by the inner try/except (lines 108-116): the run still returns
the response. -/
def process_buffered_messages (env : BurstEnv) : BurstOutcome :=
  match env.buffer with
  | none => ⟨[], [], false, false, .ok "No messages to process."⟩
  | some [] => ⟨[], [], false, false, .ok "No messages to process."⟩
  | some msgs =>
    let combined := combine_messages (msgs.map (fun m => m.content))
    if pyStrip combined = "" then
      ⟨[], [], true, false, .ok ""⟩
    else
      match env.flushResult with
      | .error e => ⟨[], [], true, false, .error e⟩
      | .ok _ =>
        match env.genResult with
        | .error e => ⟨[], [], true, true, .error e⟩
        | .ok resp =>
          match env.commitResult with
          | .error e => ⟨[], [], true, true, .error e⟩
          | .ok _ =>
            let transcript :=
              msgs.map (fun m => (⟨"user", m.content⟩ : TranscriptEntry))
                ++ [⟨"assistant", resp⟩]
            match env.deliverResult with
            | .error _ => ⟨transcript, [], true, true, .ok resp⟩
            | .ok _ =>
              ⟨transcript, [Payload.message resp], true, true, .ok resp⟩

/-- Claim C5: a run that finds an empty or absent buffer is an idempotent
no-op — no transcript row, no delivery push, no generation call, and it
returns immediately (it does not even clear). -/
theorem empty_buffer_noop (env : BurstEnv)
    (h : env.buffer = none ∨ env.buffer = some []) :
    (process_buffered_messages env).transcript = [] ∧
    (process_buffered_messages env).pushes = [] ∧
    (process_buffered_messages env).genInvoked = false ∧
    (process_buffered_messages env).cleared = false ∧
    (process_buffered_messages env).result = .ok "No messages to process." := by
  obtain ⟨buf, fl, gen, com, del⟩ := env
  rcases h with h | h <;> simp only at h <;> subst h <;>
    exact ⟨rfl, rfl, rfl, rfl, rfl⟩

/-- Witness for empty_buffer_noop on an absent buffer. -/
theorem empty_buffer_noop_witness :
    (process_buffered_messages
        ⟨none, .ok (), .ok "r", .ok (), .ok ()⟩).transcript = [] ∧
    (process_buffered_messages
        ⟨none, .ok (), .ok "r", .ok (), .ok ()⟩).pushes = [] ∧
    (process_buffered_messages
        ⟨none, .ok (), .ok "r", .ok (), .ok ()⟩).genInvoked = false ∧
    (process_buffered_messages
        ⟨none, .ok (), .ok "r", .ok (), .ok ()⟩).cleared = false ∧
    (process_buffered_messages
        ⟨none, .ok (), .ok "r", .ok (), .ok ()⟩).result
        = .ok "No messages to process." :=
  empty_buffer_noop ⟨none, .ok (), .ok "r", .ok (), .ok ()⟩ (Or.inl rfl)

/-- Claim C6: on a non-empty buffer whose combined text trims to empty,
the run clears the buffer and returns without invoking generation,
writing no transcript row and pushing nothing. -/
theorem blank_burst_clears_without_reply (env : BurstEnv) (msgs : List BufMsg)
    (hb : env.buffer = some msgs) (hne : msgs ≠ [])
    (hc : pyStrip (combine_messages (msgs.map (fun m => m.content))) = "") :
    (process_buffered_messages env).cleared = true ∧
    (process_buffered_messages env).genInvoked = false ∧
    (process_buffered_messages env).transcript = [] ∧
    (process_buffered_messages env).pushes = [] ∧
    (process_buffered_messages env).result = .ok "" := by
  obtain ⟨buf, fl, gen, com, del⟩ := env
  simp only at hb
  subst hb
  cases msgs with
  | nil => exact absurd rfl hne
  | cons m rest =>
    simp only [List.map_cons] at hc
    simp [process_buffered_messages, hc]

/-- Witness for blank_burst_clears_without_reply: a sole whitespace-only
message. -/
theorem blank_burst_clears_without_reply_witness :
    (process_buffered_messages
        ⟨some [⟨"  ", 0⟩], .ok (), .ok "r", .ok (), .ok ()⟩).cleared = true ∧
    (process_buffered_messages
        ⟨some [⟨"  ", 0⟩], .ok (), .ok "r", .ok (), .ok ()⟩).genInvoked
        = false ∧
    (process_buffered_messages
        ⟨some [⟨"  ", 0⟩], .ok (), .ok "r", .ok (), .ok ()⟩).transcript
        = [] ∧
    (process_buffered_messages
        ⟨some [⟨"  ", 0⟩], .ok (), .ok "r", .ok (), .ok ()⟩).pushes = [] ∧
    (process_buffered_messages
        ⟨some [⟨"  ", 0⟩], .ok (), .ok "r", .ok (), .ok ()⟩).result
        = .ok "" :=
  blank_burst_clears_without_reply
    ⟨some [⟨"  ", 0⟩], .ok (), .ok "r", .ok (), .ok ()⟩ [⟨"  ", 0⟩]
    rfl (by decide) (by decide)

/-- Counterexample to claim C2: on a generation failure over a real burst
the processor pushes nothing at all to the delivery channel — in
particular no error payload — and the error propagates out. -/
theorem generation_failure_pushes_nothing :
    (process_buffered_messages
        ⟨some [⟨"hello", 0⟩], .ok (), .error "boom", .ok (),
         .ok ()⟩).pushes = [] ∧
    (process_buffered_messages
        ⟨some [⟨"hello", 0⟩], .ok (), .error "boom", .ok (),
         .ok ()⟩).result = .error "boom" := ⟨rfl, rfl⟩

/-- Claim C2 (amended): over a non-empty, non-blank burst — if the
user-row flush, the generation step or the commit raises, the buffer is
cleared before the error is re-raised, no transcript row is committed
and nothing (no error payload either) is pushed; if the delivery push
raises, the error is swallowed instead of propagating: the transcript
stays committed, the buffer was cleared before the push attempt, the run
returns the response, and again nothing is delivered. -/
theorem burst_error_paths (env : BurstEnv) (msgs : List BufMsg)
    (hb : env.buffer = some msgs) (hne : msgs ≠ [])
    (hc : pyStrip (combine_messages (msgs.map (fun m => m.content))) ≠ "") :
    (∀ e : String, env.flushResult = .error e →
      (process_buffered_messages env).cleared = true ∧
      (process_buffered_messages env).result = .error e ∧
      (process_buffered_messages env).transcript = [] ∧
      (process_buffered_messages env).pushes = []) ∧
    (∀ e : String, env.flushResult = .ok () → env.genResult = .error e →
      (process_buffered_messages env).cleared = true ∧
      (process_buffered_messages env).result = .error e ∧
      (process_buffered_messages env).transcript = [] ∧
      (process_buffered_messages env).pushes = []) ∧
    (∀ e resp : String, env.flushResult = .ok () →
      env.genResult = .ok resp → env.commitResult = .error e →
      (process_buffered_messages env).cleared = true ∧
      (process_buffered_messages env).result = .error e ∧
      (process_buffered_messages env).transcript = [] ∧
      (process_buffered_messages env).pushes = []) ∧
    (∀ e resp : String, env.flushResult = .ok () →
      env.genResult = .ok resp → env.commitResult = .ok () →
      env.deliverResult = .error e →
      (process_buffered_messages env).cleared = true ∧
      (process_buffered_messages env).result = .ok resp ∧
      (process_buffered_messages env).transcript =
        msgs.map (fun m => (⟨"user", m.content⟩ : TranscriptEntry))
          ++ [⟨"assistant", resp⟩] ∧
      (process_buffered_messages env).pushes = []) := by
  obtain ⟨buf, fl, gen, com, del⟩ := env
  simp only at hb
  subst hb
  cases msgs with
  | nil => exact absurd rfl hne
  | cons m rest =>
    simp only [List.map_cons] at hc
    refine ⟨?_, ?_, ?_, ?_⟩
    · intro e hfl
      simp only at hfl
      subst hfl
      simp [process_buffered_messages, hc]
    · intro e hfl hg
      simp only at hfl hg
      subst hfl
      subst hg
      simp [process_buffered_messages, hc]
    · intro e resp hfl hg hcom
      simp only at hfl hg hcom
      subst hfl
      subst hg
      subst hcom
      simp [process_buffered_messages, hc]
    · intro e resp hfl hg hcom hdel
      simp only at hfl hg hcom hdel
      subst hfl
      subst hg
      subst hcom
      subst hdel
      simp [process_buffered_messages, hc]

/-- Witness for burst_error_paths: a generation failure over a
one-message burst. -/
theorem burst_error_paths_witness :
    (process_buffered_messages
        ⟨some [⟨"hi", 0⟩], .ok (), .error "boom", .ok (),
         .ok ()⟩).cleared = true ∧
    (process_buffered_messages
        ⟨some [⟨"hi", 0⟩], .ok (), .error "boom", .ok (),
         .ok ()⟩).result = .error "boom" ∧
    (process_buffered_messages
        ⟨some [⟨"hi", 0⟩], .ok (), .error "boom", .ok (),
         .ok ()⟩).transcript = [] ∧
    (process_buffered_messages
        ⟨some [⟨"hi", 0⟩], .ok (), .error "boom", .ok (),
         .ok ()⟩).pushes = [] :=
  (burst_error_paths
      ⟨some [⟨"hi", 0⟩], .ok (), .error "boom", .ok (), .ok ()⟩
      [⟨"hi", 0⟩] rfl (by decide) (by decide)).2.1 "boom" rfl rfl

/-- The arguments the websocket handler passes to enqueue_job
(websocket.py lines 225-229): only the store and session identifiers,
never message content. -/
structure DispatchTicket where
  store_id : String
  session_id : String
deriving DecidableEq

/-- One call of enqueue_job (redis.py lines 99-120): queue.enqueue pushes
the ticket with no scheduling argument, so the job is runnable at the
enqueue instant itself. -/
structure EnqueueCall where
  ticket : DispatchTicket
  runnableAt : Int
deriving DecidableEq

/-- delay_seconds as handle_chat_message computes it (websocket.py line
222): max(0, process_at - now). -/
def computed_delay (process_at now : Int) : Int := max 0 (process_at - now)

/-- The observable effect of one handle_chat_message call. -/
structure HandleStep where
  state : BufferState
  payloads : List Payload
  enqueues : List EnqueueCall
  is_first : Bool

/-- handle_chat_message (websocket.py lines 188-247): send the typing
notice, append to the buffer, echo the user message, and exactly when
is_first_message holds call enqueue_job with args (store_id, session_id)
and no delay — queue.enqueue makes the job runnable at now, the computed
delay_seconds being only logged. -/
def handle_chat_message (store_id session_id : String) (now : Int)
    (content : String) (st : BufferState) : HandleStep :=
  let step := add_message_to_buffer now content st
  let enqueues :=
    if step.2.is_first_message then [⟨⟨store_id, session_id⟩, now⟩] else []
  ⟨step.1, [Payload.typing, Payload.userEcho content], enqueues,
   step.2.is_first_message⟩

/-- Accumulated effect of handling a burst of inbound messages in order. -/
structure BurstRun where
  state : BufferState
  payloads : List Payload
  enqueues : List EnqueueCall
  flags : List Bool

/-- Fold one inbound (content, arrival time) pair into the run. -/
def runBurstStep (store_id session_id : String) (acc : BurstRun)
    (m : String × Int) : BurstRun :=
  let r := handle_chat_message store_id session_id m.2 m.1 acc.state
  ⟨r.state, acc.payloads ++ r.payloads, acc.enqueues ++ r.enqueues,
   acc.flags ++ [r.is_first]⟩

/-- Handle a whole burst: every message of the list goes through
handle_chat_message against the same conversation, starting from no
active buffer. -/
def runBurst (store_id session_id : String)
    (msgs : List (String × Int)) : BurstRun :=
  msgs.foldl (runBurstStep store_id session_id) ⟨emptyBuffer, [], [], []⟩

/-- Recognize the typing interim notice among payloads. -/
def isTyping : Payload → Bool
  | .typing => true
  | _ => false

/-- Appending to a non-empty buffer never reports a first message. -/
lemma handle_chat_message_not_first (store_id session_id : String)
    (now : Int) (content : String) (st : BufferState)
    (h : st.messages ≠ []) :
    (handle_chat_message store_id session_id now content st).enqueues = [] ∧
    (handle_chat_message store_id session_id now content st).is_first
        = false ∧
    (handle_chat_message store_id session_id now content st).state.messages
        ≠ [] := by
  cases hm : st.messages with
  | nil => exact absurd hm h
  | cons a t =>
    refine ⟨?_, ?_, ?_⟩ <;>
      simp [handle_chat_message, add_message_to_buffer, hm]

/-- Folding further messages over a run whose buffer is already
non-empty adds no enqueue and only false first-flags. -/
lemma runBurst_tail (store_id session_id : String)
    (msgs : List (String × Int)) (acc : BurstRun)
    (h : acc.state.messages ≠ []) :
    (msgs.foldl (runBurstStep store_id session_id) acc).enqueues
        = acc.enqueues ∧
    (msgs.foldl (runBurstStep store_id session_id) acc).flags
        = acc.flags ++ List.replicate msgs.length false := by
  induction msgs generalizing acc with
  | nil => simp
  | cons hd tl ih =>
    obtain ⟨he, hf, hs⟩ :=
      handle_chat_message_not_first store_id session_id hd.2 hd.1 acc.state h
    have step :
        runBurstStep store_id session_id acc hd
          = ⟨(handle_chat_message store_id session_id hd.2 hd.1
                acc.state).state,
             acc.payloads
               ++ (handle_chat_message store_id session_id hd.2 hd.1
                     acc.state).payloads,
             acc.enqueues, acc.flags ++ [false]⟩ := by
      simp [runBurstStep, he, hf]
    obtain ⟨ihe, ihf⟩ := ih (runBurstStep store_id session_id acc hd)
      (by rw [step]; exact hs)
    refine ⟨?_, ?_⟩
    · rw [List.foldl_cons, ihe, step]
    · rw [List.foldl_cons, ihf, step]
      simp [List.replicate_succ]

/-- Claim C4: over any non-empty burst, only the first append reports
is_first_message (the rest report false) and exactly one DispatchTicket
is enqueued, carrying only the store and session identifiers. -/
theorem single_ticket_per_burst (store_id session_id : String)
    (msgs : List (String × Int)) (h : msgs ≠ []) :
    (runBurst store_id session_id msgs).flags
        = true :: List.replicate (msgs.length - 1) false ∧
    (runBurst store_id session_id msgs).enqueues.map (fun e => e.ticket)
        = [⟨store_id, session_id⟩] := by
  cases msgs with
  | nil => exact absurd rfl h
  | cons hd tl =>
    have first :
        runBurstStep store_id session_id ⟨emptyBuffer, [], [], []⟩ hd
          = ⟨⟨[⟨hd.1, hd.2⟩], some (hd.2 + MESSAGE_BUFFER_TIMEOUT_SECONDS)⟩,
             [Payload.typing, Payload.userEcho hd.1],
             [⟨⟨store_id, session_id⟩, hd.2⟩], [true]⟩ := by
      simp [runBurstStep, handle_chat_message, add_message_to_buffer,
        emptyBuffer]
    obtain ⟨he, hf⟩ := runBurst_tail store_id session_id tl
      (runBurstStep store_id session_id ⟨emptyBuffer, [], [], []⟩ hd)
      (by rw [first]; simp)
    unfold runBurst
    rw [List.foldl_cons]
    refine ⟨?_, ?_⟩
    · rw [hf, first]
      simp
    · rw [he, first]
      rfl

/-- Witness for single_ticket_per_burst on a three-message burst. -/
theorem single_ticket_per_burst_witness :
    (runBurst "store1" "sess1" [("a", 0), ("b", 1), ("c", 1)]).flags
        = true :: List.replicate 2 false ∧
    (runBurst "store1" "sess1"
        [("a", 0), ("b", 1), ("c", 1)]).enqueues.map (fun e => e.ticket)
        = [⟨"store1", "sess1"⟩] :=
  single_ticket_per_burst "store1" "sess1" [("a", 0), ("b", 1), ("c", 1)]
    (by decide)

/-- Claim C1 (code evaluated at the failing input): on the first message
at time 100 the handler computes delay_seconds = 2 toward process_at =
102, yet the enqueue call it emits is runnable at 100 — immediately at
enqueue time, before the debounce window elapses. -/
theorem first_message_enqueued_without_delay :
    (add_message_to_buffer 100 "hello" emptyBuffer).2.process_at = 102 ∧
    computed_delay 102 100 = 2 ∧
    (handle_chat_message "store1" "sess1" 100 "hello" emptyBuffer).enqueues
        = [⟨⟨"store1", "sess1"⟩, 100⟩] ∧
    (100 : Int) < 102 := by
  refine ⟨rfl, by decide, ?_, by decide⟩
  simp [handle_chat_message, add_message_to_buffer, emptyBuffer]

/-- Counterexample to claim C9: a two-message burst produces the typing
notice twice — the second message of the burst triggers it again. -/
theorem typing_sent_twice_in_burst :
    (runBurst "s" "c" [("a", 0), ("b", 1)]).payloads
        = [Payload.typing, Payload.userEcho "a",
           Payload.typing, Payload.userEcho "b"] ∧
    ((runBurst "s" "c" [("a", 0), ("b", 1)]).payloads.countP isTyping)
        = 2 := by
  refine ⟨?_, ?_⟩ <;> rfl

/-- Every handled message contributes exactly one typing notice. -/
lemma runBurst_typing_count (store_id session_id : String)
    (msgs : List (String × Int)) (acc : BurstRun) :
    (msgs.foldl (runBurstStep store_id session_id) acc).payloads.countP
        isTyping
      = acc.payloads.countP isTyping + msgs.length := by
  induction msgs generalizing acc with
  | nil => simp
  | cons hd tl ih =>
    rw [List.foldl_cons, ih]
    simp [runBurstStep, handle_chat_message, isTyping, List.countP_append]
    omega

/-- Claim C9 (amended): the typing interim notice is sent on receipt of
every message of the burst — once per inbound message, not only on the
first. -/
theorem typing_on_every_message (store_id session_id : String)
    (msgs : List (String × Int)) :
    (runBurst store_id session_id msgs).payloads.countP isTyping
        = msgs.length := by
  unfold runBurst
  rw [runBurst_typing_count]
  simp

/-- Per-tenant table of live connections: session_id to a websocket
handle (abstracted as a number). Python dict modelled as an association
list with unique keys maintained by setKey and eraseKey. -/
abbrev ConnTable := List (String × Nat)

/-- ConnectionManager.active_connections (websocket.py line 27):
store_id to its per-tenant connection table. -/
abbrev Registry := List (String × ConnTable)

/-- Dictionary read d.get(k). -/
def lookupKey {β : Type} (k : String) : List (String × β) → Option β
  | [] => none
  | (k2, v) :: rest => if k2 = k then some v else lookupKey k rest

/-- Dictionary write d[k] = v: replace the bound value or append. -/
def setKey {β : Type} (k : String) (v : β) :
    List (String × β) → List (String × β)
  | [] => [(k, v)]
  | (k2, v2) :: rest =>
    if k2 = k then (k, v) :: rest else (k2, v2) :: setKey k v rest

/-- Dictionary delete d.pop(k, None) / del d[k]. -/
def eraseKey {β : Type} (k : String) :
    List (String × β) → List (String × β)
  | [] => []
  | (k2, v2) :: rest =>
    if k2 = k then eraseKey k rest else (k2, v2) :: eraseKey k rest

/-- ConnectionManager.connect (websocket.py lines 29-37): create the
tenant entry when absent, then register the session's websocket. -/
def connect (store_id session_id : String) (ws : Nat) (m : Registry) :
    Registry :=
  let inner := (lookupKey store_id m).getD []
  setKey store_id (setKey session_id ws inner) m

/-- ConnectionManager.disconnect (websocket.py lines 39-45): pop the
session from the tenant table if the tenant is known, and delete the
tenant entry when its table became empty. -/
def disconnect (store_id session_id : String) (m : Registry) : Registry :=
  match lookupKey store_id m with
  | none => m
  | some inner =>
    let inner2 := eraseKey session_id inner
    if inner2 = [] then eraseKey store_id m
    else setKey store_id inner2 m

/-- ConnectionManager.send_message (websocket.py lines 47-56): look the
connection up; nothing happens when it is absent; a successful send
leaves the registry unchanged; a send error disconnects the session. -/
def send_message (store_id session_id : String) (sendOk : Bool)
    (m : Registry) : Registry :=
  match lookupKey store_id m with
  | none => m
  | some inner =>
    match lookupKey session_id inner with
    | none => m
    | some _ => if sendOk then m else disconnect store_id session_id m

/-- The operations a ConnectionManager ever performs on the registry. -/
inductive ConnOp where
  | connect (store_id session_id : String) (ws : Nat)
  | disconnect (store_id session_id : String)
  | send (store_id session_id : String) (ok : Bool)

/-- Apply one operation to the registry. -/
def applyOp (m : Registry) : ConnOp → Registry
  | .connect s c w => connect s c w m
  | .disconnect s c => disconnect s c m
  | .send s c ok => send_message s c ok m

/-- Run a sequence of operations from the initial empty registry. -/
def runOps (ops : List ConnOp) : Registry := ops.foldl applyOp []

/-- Connection lookup across both levels. -/
def connLookup (store_id session_id : String) (m : Registry) :
    Option Nat :=
  (lookupKey store_id m).bind (fun inner => lookupKey session_id inner)

/-- The registry invariant: no tenant is bound to an empty table. -/
def RegistryWF (m : Registry) : Prop := ∀ p ∈ m, p.2 ≠ []

/-- setKey never returns the empty list. -/
lemma setKey_ne_nil {β : Type} (k : String) (v : β)
    (l : List (String × β)) : setKey k v l ≠ [] := by
  cases l with
  | nil => simp [setKey]
  | cons p rest =>
    obtain ⟨k2, v2⟩ := p
    by_cases h : k2 = k <;> simp [setKey, h]

/-- Members of setKey k v l are the new pair or old members. -/
lemma mem_setKey {β : Type} (k : String) (v : β) (l : List (String × β))
    (p : String × β) (hp : p ∈ setKey k v l) : p = (k, v) ∨ p ∈ l := by
  induction l with
  | nil => simpa [setKey] using hp
  | cons q rest ih =>
    obtain ⟨k2, v2⟩ := q
    by_cases h : k2 = k
    · rw [setKey, if_pos h] at hp
      rcases List.mem_cons.mp hp with h1 | h1
      · exact Or.inl h1
      · exact Or.inr (List.mem_cons_of_mem _ h1)
    · rw [setKey, if_neg h] at hp
      rcases List.mem_cons.mp hp with h1 | h1
      · exact Or.inr (h1 ▸ List.mem_cons_self _ _)
      · rcases ih h1 with h2 | h2
        · exact Or.inl h2
        · exact Or.inr (List.mem_cons_of_mem _ h2)

/-- Members of eraseKey k l were members of l. -/
lemma mem_eraseKey {β : Type} (k : String) (l : List (String × β))
    (p : String × β) (hp : p ∈ eraseKey k l) : p ∈ l := by
  induction l with
  | nil => simp [eraseKey] at hp
  | cons q rest ih =>
    obtain ⟨k2, v2⟩ := q
    by_cases h : k2 = k
    · rw [eraseKey, if_pos h] at hp
      exact List.mem_cons_of_mem _ (ih hp)
    · rw [eraseKey, if_neg h] at hp
      rcases List.mem_cons.mp hp with h1 | h1
      · exact h1 ▸ List.mem_cons_self _ _
      · exact List.mem_cons_of_mem _ (ih h1)

/-- A successful lookup exhibits a member. -/
lemma lookupKey_mem {β : Type} (k : String) (l : List (String × β))
    (v : β) (h : lookupKey k l = some v) : (k, v) ∈ l := by
  induction l with
  | nil => simp [lookupKey] at h
  | cons q rest ih =>
    obtain ⟨k2, v2⟩ := q
    by_cases h2 : k2 = k
    · rw [lookupKey, if_pos h2] at h
      subst h2
      obtain rfl : v2 = v := Option.some.inj h
      exact List.mem_cons_self _ _
    · rw [lookupKey, if_neg h2] at h
      exact List.mem_cons_of_mem _ (ih h)

/-- Erasing an unbound key changes nothing. -/
lemma eraseKey_of_lookup_none {β : Type} (k : String)
    (l : List (String × β)) (h : lookupKey k l = none) :
    eraseKey k l = l := by
  induction l with
  | nil => rfl
  | cons q rest ih =>
    obtain ⟨k2, v2⟩ := q
    by_cases h2 : k2 = k
    · rw [lookupKey, if_pos h2] at h
      exact absurd h (by simp)
    · rw [lookupKey, if_neg h2] at h
      rw [eraseKey, if_neg h2, ih h]

/-- Writing back the value a key already holds changes nothing. -/
lemma setKey_of_lookup_some {β : Type} (k : String)
    (l : List (String × β)) (v : β) (h : lookupKey k l = some v) :
    setKey k v l = l := by
  induction l with
  | nil => simp [lookupKey] at h
  | cons q rest ih =>
    obtain ⟨k2, v2⟩ := q
    by_cases h2 : k2 = k
    · rw [lookupKey, if_pos h2] at h
      obtain rfl : v2 = v := Option.some.inj h
      rw [setKey, if_pos h2, h2]
    · rw [lookupKey, if_neg h2] at h
      rw [setKey, if_neg h2, ih h]

/-- After erasing a key it can no longer be looked up. -/
lemma lookupKey_eraseKey_self {β : Type} (k : String)
    (l : List (String × β)) : lookupKey k (eraseKey k l) = none := by
  induction l with
  | nil => rfl
  | cons q rest ih =>
    obtain ⟨k2, v2⟩ := q
    by_cases h : k2 = k
    · rw [eraseKey, if_pos h]
      exact ih
    · rw [eraseKey, if_neg h, lookupKey, if_neg h]
      exact ih

/-- connect preserves the registry invariant. -/
lemma wf_connect (s c : String) (w : Nat) (m : Registry)
    (hwf : RegistryWF m) : RegistryWF (connect s c w m) := by
  intro p hp
  rcases mem_setKey _ _ _ _ hp with h | h
  · rw [h]
    exact setKey_ne_nil _ _ _
  · exact hwf p h

/-- disconnect preserves the registry invariant. -/
lemma wf_disconnect (s c : String) (m : Registry)
    (hwf : RegistryWF m) : RegistryWF (disconnect s c m) := by
  unfold disconnect
  cases h : lookupKey s m with
  | none => exact hwf
  | some inner =>
    dsimp only
    by_cases h2 : eraseKey c inner = []
    · rw [if_pos h2]
      intro p hp
      exact hwf p (mem_eraseKey _ _ _ hp)
    · rw [if_neg h2]
      intro p hp
      rcases mem_setKey _ _ _ _ hp with h3 | h3
      · rw [h3]
        exact h2
      · exact hwf p h3

/-- send_message preserves the registry invariant. -/
lemma wf_send_message (s c : String) (ok : Bool) (m : Registry)
    (hwf : RegistryWF m) : RegistryWF (send_message s c ok m) := by
  unfold send_message
  cases lookupKey s m with
  | none => exact hwf
  | some inner =>
    dsimp only
    cases lookupKey c inner with
    | none => exact hwf
    | some w =>
      dsimp only
      cases ok with
      | true => exact hwf
      | false => exact wf_disconnect s c m hwf

/-- Any operation sequence started from the empty registry keeps the
invariant. -/
lemma wf_foldl (ops : List ConnOp) (m : Registry) (hwf : RegistryWF m) :
    RegistryWF (ops.foldl applyOp m) := by
  induction ops generalizing m with
  | nil => exact hwf
  | cons op rest ih =>
    rw [List.foldl_cons]
    apply ih
    cases op with
    | connect s c w => exact wf_connect s c w m hwf
    | disconnect s c => exact wf_disconnect s c m hwf
    | send s c ok => exact wf_send_message s c ok m hwf

/-- Disconnecting the tenant's only session removes the tenant entry. -/
lemma disconnect_last (m : Registry) (s c : String) (ws : Nat)
    (h : lookupKey s m = some [(c, ws)]) :
    lookupKey s (disconnect s c m) = none := by
  unfold disconnect
  rw [h]
  dsimp only
  have h2 : eraseKey c [(c, ws)] = ([] : ConnTable) := by
    simp [eraseKey]
  rw [h2, if_pos rfl]
  exact lookupKey_eraseKey_self _ _

/-- On a well-formed registry, disconnecting an unregistered
conversation changes nothing. -/
lemma disconnect_unregistered (m : Registry) (s c : String)
    (hwf : RegistryWF m) (h : connLookup s c m = none) :
    disconnect s c m = m := by
  unfold disconnect
  cases h1 : lookupKey s m with
  | none => rfl
  | some inner =>
    have hcl : lookupKey c inner = none := by
      unfold connLookup at h
      rw [h1] at h
      simpa using h
    have hne : inner ≠ [] := hwf (s, inner) (lookupKey_mem _ _ _ h1)
    dsimp only
    rw [eraseKey_of_lookup_none _ _ hcl, if_neg hne]
    exact setKey_of_lookup_some _ _ _ h1

/-- Claim C10: after any sequence of connect, disconnect and
send_message operations from the empty registry, no tenant is bound to
an empty table; disconnect of a tenant's last session removes the tenant
entry; and disconnect of an unregistered conversation leaves the
registry unchanged. -/
theorem connection_registry_invariant (ops : List ConnOp) :
    RegistryWF (runOps ops) ∧
    (∀ s c : String, ∀ ws : Nat,
      lookupKey s (runOps ops) = some [(c, ws)] →
        lookupKey s (disconnect s c (runOps ops)) = none) ∧
    (∀ s c : String, connLookup s c (runOps ops) = none →
        disconnect s c (runOps ops) = runOps ops) := by
  have hwf : RegistryWF (runOps ops) :=
    wf_foldl ops [] (by intro p hp; simp at hp)
  refine ⟨hwf, ?_, ?_⟩
  · intro s c ws h
    exact disconnect_last _ s c ws h
  · intro s c h
    exact disconnect_unregistered _ s c hwf h

/-- Witness for connection_registry_invariant: one registered
connection; disconnecting a different session is a no-op. -/
theorem connection_registry_invariant_witness :
    RegistryWF (runOps [ConnOp.connect "s" "c" 0]) ∧
    lookupKey "s"
        (disconnect "s" "c" (runOps [ConnOp.connect "s" "c" 0])) = none ∧
    disconnect "s" "x" (runOps [ConnOp.connect "s" "c" 0])
        = runOps [ConnOp.connect "s" "c" 0] :=
  ⟨(connection_registry_invariant [ConnOp.connect "s" "c" 0]).1,
   (connection_registry_invariant
      [ConnOp.connect "s" "c" 0]).2.1 "s" "c" 0 (by decide),
   (connection_registry_invariant
      [ConnOp.connect "s" "c" 0]).2.2 "s" "x" (by decide)⟩

end BrendiFast
